import Mathlib

/-
  Shallow embedding of the ATmega8535 gate-controller firmware
  (src/src/gate_controller_atmega8535.c).

  The firmware's process-wide state (the volatile globals), the relay and
  LED output pins, and the two EEPROM bytes it uses are gathered in one
  record `Ctrl`.  Each C function becomes a Lean function on `Ctrl`,
  translated line by line from the source:

  - `read_gate_state` / `write_gate_state`   (EEPROM byte at address 0)
  - `stop_gate`, `indicate_*`                (actuator outputs)
  - `open_gate`, `close_gate`                (timed motion windows)
  - `toggle_gate`, `emergency_stop`          (state machine)
  - `schedule_reset`, `perform_controlled_reset`, and the periodic
    supervisor check of the main loop       (watchdog/reset supervisor)
  - the `INT0` interrupt handler.

  Time is not modelled (delays are no-ops on the state); watchdog
  services (`reset_watchdog` calls, i.e. `wdt_reset`) are counted in the
  field `wdt_services` so that "the loop services the watchdog each
  iteration" is visible in the state.  The 30-second motion window,
  `for (uint16_t i = 0; i < 30000; i += 10)`, runs exactly 3000
  iterations of 10ms; the model indexes those iterations 0..2999.
  External interference with the polling loop (the button ISR firing
  during a delay and clearing `gate_moving`) is modelled by an
  environment function applied at each iteration.

  `perform_controlled_reset` ends in `wdt_enable(WDTO_15MS); while(1);`:
  the model records this terminal configuration with `wdt_short := true`
  (the 15ms watchdog timeout is armed) and `halted := true` (the
  infinite busy-wait is entered, after which the firmware never services
  the watchdog again).
-/

namespace GateCtrl

/-- Gate-state byte codes, from the #define block of the source. -/
def GATE_CLOSED : Nat := 0

/-- GATE_CLOSING code (1). -/
def GATE_CLOSING : Nat := 1

/-- GATE_OPENING code (2). -/
def GATE_OPENING : Nat := 2

/-- GATE_OPEN code (3). -/
def GATE_OPEN : Nat := 3

/-- 30 seconds for the gate to fully open or close (ms). -/
def GATE_OPERATION_TIME : Nat := 30000

/-- 10ms quantum used in the polling loops. -/
def SHORT_DELAY : Nat := 10

/-- 5 seconds of idle before the controlled reset fires. -/
def RESET_DELAY : Nat := 5000

/-- Reset every 6 hours if idle. -/
def REGULAR_RESET_HOURS : Nat := 6

/-- Milliseconds in an hour. -/
def MS_PER_HOUR : Nat := 3600000

/-- Number of iterations of the motion-window polling loop:
`for (uint16_t i = 0; i < GATE_OPERATION_TIME; i += SHORT_DELAY)`
runs 30000 / 10 = 3000 times (i = 0, 10, ..., 29990; no uint16 overflow). -/
def MOTION_ITERS : Nat := GATE_OPERATION_TIME / SHORT_DELAY

/-- The controller state: the firmware's volatile globals, the output
pins it drives (PORTB relay bits, PORTD LED bits), the two EEPROM bytes,
a count of EEPROM writes to the gate-state byte (to make "a write
occurred" observable), a count of watchdog services, and the terminal
watchdog configuration of a controlled reset. -/
structure Ctrl where
  gate_state : Nat
  button_pressed : Bool
  gate_moving : Bool
  idle_timer_ms : Nat
  reset_scheduled : Bool
  relay_k1 : Bool
  relay_k2 : Bool
  relay_k3 : Bool
  relay_k4 : Bool
  led_opening : Bool
  led_closing : Bool
  eeprom_state : Nat
  eeprom_reset_flag : Nat
  eeprom_state_writes : Nat
  wdt_services : Nat
  wdt_short : Bool
  halted : Bool
  deriving DecidableEq

attribute [ext] Ctrl

/-- read_gate_state: reads the EEPROM gate-state byte and normalizes the
two transient codes (CLOSING becomes CLOSED, OPENING becomes OPEN), as
in the source's two sequential if-statements. -/
def read_gate_state (c : Ctrl) : Nat :=
  let state := c.eeprom_state
  let state := if state = GATE_CLOSING then GATE_CLOSED else state
  let state := if state = GATE_OPENING then GATE_OPEN else state
  state

/-- write_gate_state: writes the byte only when read_gate_state differs
from the requested value (EEPROM wear avoidance). -/
def write_gate_state (state : Nat) (c : Ctrl) : Ctrl :=
  if read_gate_state c ≠ state then
    { c with eeprom_state := state, eeprom_state_writes := c.eeprom_state_writes + 1 }
  else c

/-- indicate_opening: opening LED on, closing LED off. -/
def indicate_opening (c : Ctrl) : Ctrl :=
  { c with led_opening := true, led_closing := false }

/-- indicate_closing: closing LED on, opening LED off. -/
def indicate_closing (c : Ctrl) : Ctrl :=
  { c with led_closing := true, led_opening := false }

/-- indicate_stop: both direction LEDs off. -/
def indicate_stop (c : Ctrl) : Ctrl :=
  { c with led_opening := false, led_closing := false }

/-- stop_gate: de-energize all four relays, LEDs off, clear gate_moving. -/
def stop_gate (c : Ctrl) : Ctrl :=
  let c := { c with relay_k1 := false, relay_k2 := false,
                    relay_k3 := false, relay_k4 := false }
  let c := indicate_stop c
  { c with gate_moving := false }

/-- reset_watchdog: wdt_reset(), counted in the model. -/
def reset_watchdog (c : Ctrl) : Ctrl :=
  { c with wdt_services := c.wdt_services + 1 }

/-- The body of the motion-window polling loop, iterated `fuel` more
times starting at iteration index `i`.  Each C iteration is:
`_delay_ms(SHORT_DELAY); reset_watchdog(); if (!gate_moving) return;`.
The environment `env` models whatever the button interrupt does during
the delay (it runs to completion inside the delay, so its whole effect
is a state transformer applied between iterations).  The result is
`(true, c)` when the loop ran to completion and `(false, c)` when it
returned early because `gate_moving` was found cleared. -/
def pollLoop (env : Nat → Ctrl → Ctrl) : Nat → Nat → Ctrl → Bool × Ctrl
  | 0, _, c => (true, c)
  | fuel + 1, i, c =>
    let c := env i c
    let c := reset_watchdog c
    if c.gate_moving = false then (false, c)
    else pollLoop env fuel (i + 1) c

/-- The environment in which no interrupt interferes with the motion
window (the delay quanta change nothing). -/
def noEnv : Nat → Ctrl → Ctrl := fun _ c => c

/-- The environment in which, during the delay of iteration `k`, an
external action clears `gate_moving` (the essence of an emergency stop
as seen by the polling loop). -/
def clearAt (k : Nat) : Nat → Ctrl → Ctrl :=
  fun i c => if i = k then { c with gate_moving := false } else c

/-- The pre-loop part of open_gate: stop_gate, reset_watchdog,
_delay_ms(RELAY_SWITCHING_DELAY), energize relays K1 and K4, opening
indicator, gate_state := GATE_OPENING, gate_moving := 1,
idle_timer_ms := 0, reset_scheduled := 0. -/
def open_begin (c : Ctrl) : Ctrl :=
  let c := stop_gate c
  let c := reset_watchdog c
  let c := { c with relay_k1 := true, relay_k4 := true }
  let c := indicate_opening c
  let c := { c with gate_state := GATE_OPENING }
  { c with gate_moving := true, idle_timer_ms := 0, reset_scheduled := false }

/-- The post-loop part of open_gate: stop_gate, gate_state := GATE_OPEN,
write_gate_state(gate_state). -/
def open_finish (c : Ctrl) : Ctrl :=
  let c := stop_gate c
  let c := { c with gate_state := GATE_OPEN }
  write_gate_state c.gate_state c

/-- open_gate: begin phase, then the 3000-iteration polling loop; on
early return the state is returned as the loop left it, on completion
the finish phase runs. -/
def open_gate (env : Nat → Ctrl → Ctrl) (c : Ctrl) : Ctrl :=
  match pollLoop env MOTION_ITERS 0 (open_begin c) with
  | (false, c) => c
  | (true, c) => open_finish c

/-- The pre-loop part of close_gate: energizes relays K2 and K3, closing
indicator, gate_state := GATE_CLOSING, otherwise as open_begin. -/
def close_begin (c : Ctrl) : Ctrl :=
  let c := stop_gate c
  let c := reset_watchdog c
  let c := { c with relay_k2 := true, relay_k3 := true }
  let c := indicate_closing c
  let c := { c with gate_state := GATE_CLOSING }
  { c with gate_moving := true, idle_timer_ms := 0, reset_scheduled := false }

/-- The post-loop part of close_gate: stop_gate, gate_state :=
GATE_CLOSED, write_gate_state(gate_state). -/
def close_finish (c : Ctrl) : Ctrl :=
  let c := stop_gate c
  let c := { c with gate_state := GATE_CLOSED }
  write_gate_state c.gate_state c

/-- close_gate: symmetric to open_gate. -/
def close_gate (env : Nat → Ctrl → Ctrl) (c : Ctrl) : Ctrl :=
  match pollLoop env MOTION_ITERS 0 (close_begin c) with
  | (false, c) => c
  | (true, c) => close_finish c

/-- The entry of toggle_gate before dispatch: reset_watchdog();
idle_timer_ms = 0; reset_scheduled = 0. -/
def toggle_entry (c : Ctrl) : Ctrl :=
  let c := reset_watchdog c
  { c with idle_timer_ms := 0, reset_scheduled := false }

/-- toggle_gate: after the entry resets, dispatch on gate_state —
CLOSED or CLOSING invokes open_gate, everything else close_gate. -/
def toggle_gate (env : Nat → Ctrl → Ctrl) (c : Ctrl) : Ctrl :=
  let c := toggle_entry c
  if c.gate_state = GATE_CLOSED ∨ c.gate_state = GATE_CLOSING then open_gate env c
  else close_gate env c

/-- emergency_stop: stop_gate, reset_watchdog, zero the idle timer and
the scheduled-reset flag, resolve a transient gate_state optimistically
(OPENING becomes OPEN, CLOSING becomes CLOSED), persist the result. -/
def emergency_stop (c : Ctrl) : Ctrl :=
  let c := stop_gate c
  let c := reset_watchdog c
  let c := { c with idle_timer_ms := 0, reset_scheduled := false }
  let c :=
    if c.gate_state = GATE_OPENING then { c with gate_state := GATE_OPEN }
    else if c.gate_state = GATE_CLOSING then { c with gate_state := GATE_CLOSED }
    else c
  write_gate_state c.gate_state c

/-- The INT0 (button) interrupt handler.  After the 250ms debounce delay
and a watchdog service, the line is re-sampled: `stillLow` tells whether
the button is still asserted.  If not, the handler does nothing more.
If it is, the handler busy-waits until release (`waitIters` watchdog
services, one per 10ms step), zeroes the idle timer and the
scheduled-reset flag, and then either invokes emergency_stop (gate
moving) or latches button_pressed for the main loop. -/
def isr_int0 (stillLow : Bool) (waitIters : Nat) (c : Ctrl) : Ctrl :=
  let c := reset_watchdog c
  if stillLow then
    let c := { c with wdt_services := c.wdt_services + waitIters }
    let c := { c with idle_timer_ms := 0, reset_scheduled := false }
    if c.gate_moving then emergency_stop c
    else { c with button_pressed := true }
  else c

/-- schedule_reset: latch reset_scheduled and zero the idle timer, but
only when the gate is not moving and no reset is scheduled yet. -/
def schedule_reset (c : Ctrl) : Ctrl :=
  if c.gate_moving = false ∧ c.reset_scheduled = false then
    { c with reset_scheduled := true, idle_timer_ms := 0 }
  else c

/-- perform_controlled_reset: stop the gate if it is moving, write the
EEPROM reset marker to 1 unconditionally, then arm the 15ms watchdog
timeout and enter the terminal busy-wait (`while(1);`) during which the
watchdog is never serviced again. -/
def perform_controlled_reset (c : Ctrl) : Ctrl :=
  let c := if c.gate_moving then stop_gate c else c
  let c := { c with eeprom_reset_flag := 1 }
  { c with wdt_short := true, halted := true }

/-- The periodic supervisor check in main, executed each time ms_counter
reaches 1000 (about once per second of loop iterations): schedule a
reset when idle time has reached 6 hours with the gate not moving and no
reset pending; perform the controlled reset when one is scheduled and
idle time has reached the 5-second grace delay. -/
def supervisor_tick (c : Ctrl) : Ctrl :=
  let c :=
    if REGULAR_RESET_HOURS * MS_PER_HOUR ≤ c.idle_timer_ms ∧
       c.gate_moving = false ∧ c.reset_scheduled = false then
      schedule_reset c
    else c
  if c.reset_scheduled = true ∧ RESET_DELAY ≤ c.idle_timer_ms then
    perform_controlled_reset c
  else c

/-- The EEPROM load at boot (line `gate_state = read_gate_state();` of
main): the byte read is stored into gate_state with only the two
transient codes normalized — any other byte value is loaded verbatim. -/
def boot_load_state (c : Ctrl) : Ctrl :=
  { c with gate_state := read_gate_state c }

/-- One toggle serviced while idle followed by an uninterrupted
full-duration motion window. -/
def toggle_complete (c : Ctrl) : Ctrl := toggle_gate noEnv c

/-- A sequence of n toggle-then-complete steps. -/
def toggle_seq : Nat → Ctrl → Ctrl
  | 0, c => c
  | n + 1, c => toggle_seq n (toggle_complete c)

/-- A concrete controller state for witnesses: everything zeroed or
de-asserted. -/
def cInit : Ctrl where
  gate_state := 0
  button_pressed := false
  gate_moving := false
  idle_timer_ms := 0
  reset_scheduled := false
  relay_k1 := false
  relay_k2 := false
  relay_k3 := false
  relay_k4 := false
  led_opening := false
  led_closing := false
  eeprom_state := 0
  eeprom_reset_flag := 0
  eeprom_state_writes := 0
  wdt_services := 0
  wdt_short := false
  halted := false

/-- A controller state whose stored gate-state byte is the raw transient
code GATE_CLOSING (1). -/
def cStored1 : Ctrl := { cInit with eeprom_state := GATE_CLOSING }

/-- A controller state with the erased-EEPROM byte 0xFF both stored and
already loaded as the gate state. -/
def cErased : Ctrl := { cInit with eeprom_state := 255, gate_state := 255 }

/-- A controller resting in the Open state. -/
def cOpen : Ctrl := { cInit with gate_state := GATE_OPEN }

/-- A moving controller whose gate state is the transient Opening. -/
def cMovingOpening : Ctrl :=
  { cInit with gate_moving := true, gate_state := GATE_OPENING }

/-- A moving controller state. -/
def cMoving : Ctrl := { cInit with gate_moving := true }

/-- An idle controller exactly at the 6-hour threshold. -/
def cIdle6h : Ctrl :=
  { cInit with idle_timer_ms := REGULAR_RESET_HOURS * MS_PER_HOUR }

/-- A controller with a scheduled reset whose grace delay has elapsed. -/
def cGrace : Ctrl :=
  { cInit with reset_scheduled := true, idle_timer_ms := RESET_DELAY }

theorem pollLoop_noEnv_run (fuel : Nat) : ∀ (i : Nat) (c : Ctrl), c.gate_moving = true →
    pollLoop noEnv fuel i c = (true, { c with wdt_services := c.wdt_services + fuel }) := by
  induction fuel with
  | zero => intro i c h; simp [pollLoop]
  | succ n ih =>
    intro i c h
    simp only [pollLoop, noEnv, reset_watchdog]
    rw [if_neg (by simp [h]), ih (i + 1) _ (by simp [h])]
    simp [Nat.add_assoc, Nat.add_comm 1 n]

theorem pollLoop_clearAt_run (k : Nat) (fuel : Nat) : ∀ (i : Nat) (c : Ctrl),
    c.gate_moving = true → i ≤ k → k < i + fuel →
    pollLoop (clearAt k) fuel i c =
      (false, { c with gate_moving := false, wdt_services := c.wdt_services + (k - i) + 1 }) := by
  induction fuel with
  | zero => intro i c _ h1 h2; omega
  | succ n ih =>
    intro i c h h1 h2
    by_cases hik : i = k
    · subst hik
      simp [pollLoop, clearAt, reset_watchdog]
    · have hik2 : i < k := by omega
      simp only [pollLoop, clearAt, reset_watchdog, if_neg hik]
      rw [if_neg (by simp [h]), ih (i + 1) _ (by simp [h]) (by omega) (by omega)]
      have h3 : k - (i + 1) + 1 = k - i := by omega
      simp [h3, Nat.add_assoc, Nat.add_comm 1 (k - i)]

theorem open_begin_moving (c : Ctrl) : (open_begin c).gate_moving = true := rfl

theorem close_begin_moving (c : Ctrl) : (close_begin c).gate_moving = true := rfl

theorem open_gate_noEnv_eq (c : Ctrl) :
    open_gate noEnv c =
      open_finish { open_begin c with
                    wdt_services := (open_begin c).wdt_services + MOTION_ITERS } := by
  unfold open_gate
  rw [pollLoop_noEnv_run MOTION_ITERS 0 _ (open_begin_moving c)]

theorem open_gate_clearAt_eq (k : Nat) (hk : k < MOTION_ITERS) (c : Ctrl) :
    open_gate (clearAt k) c =
      { open_begin c with
        gate_moving := false,
        wdt_services := (open_begin c).wdt_services + k + 1 } := by
  unfold open_gate
  rw [pollLoop_clearAt_run k MOTION_ITERS 0 _ (open_begin_moving c) (Nat.zero_le k) (by omega)]
  simp

theorem close_gate_noEnv_eq (c : Ctrl) :
    close_gate noEnv c =
      close_finish { close_begin c with
                     wdt_services := (close_begin c).wdt_services + MOTION_ITERS } := by
  unfold close_gate
  rw [pollLoop_noEnv_run MOTION_ITERS 0 _ (close_begin_moving c)]

theorem close_gate_clearAt_eq (k : Nat) (hk : k < MOTION_ITERS) (c : Ctrl) :
    close_gate (clearAt k) c =
      { close_begin c with
        gate_moving := false,
        wdt_services := (close_begin c).wdt_services + k + 1 } := by
  unfold close_gate
  rw [pollLoop_clearAt_run k MOTION_ITERS 0 _ (close_begin_moving c) (Nat.zero_le k) (by omega)]
  simp

theorem read_gate_state_ne_transient (c : Ctrl) :
    read_gate_state c ≠ GATE_CLOSING ∧ read_gate_state c ≠ GATE_OPENING := by
  unfold read_gate_state
  simp only [GATE_CLOSING, GATE_OPENING, GATE_CLOSED, GATE_OPEN]
  split_ifs <;> omega

theorem read_write_gate_state (s : Nat) (c : Ctrl) :
    read_gate_state (write_gate_state s c) =
      (if s = GATE_CLOSING then GATE_CLOSED else if s = GATE_OPENING then GATE_OPEN else s) := by
  have hne := read_gate_state_ne_transient c
  unfold write_gate_state
  by_cases h : read_gate_state c = s
  · rw [if_neg (by simp [h])]
    rw [if_neg (by rw [← h]; exact hne.1), if_neg (by rw [← h]; exact hne.2), h]
  · rw [if_pos (by simp [h])]
    show (if (if s = GATE_CLOSING then GATE_CLOSED else s) = GATE_OPENING then GATE_OPEN
          else if s = GATE_CLOSING then GATE_CLOSED else s) =
        if s = GATE_CLOSING then GATE_CLOSED else if s = GATE_OPENING then GATE_OPEN else s
    simp only [GATE_CLOSING, GATE_OPENING, GATE_CLOSED, GATE_OPEN]
    split_ifs <;> simp_all

/-- write_gate_state only touches the EEPROM gate-state byte and the
write counter; the field gate_state passes through. -/
@[simp] theorem write_gate_state_gate_state (s : Nat) (c : Ctrl) :
    (write_gate_state s c).gate_state = c.gate_state := by
  unfold write_gate_state; split_ifs <;> rfl

/-- write_gate_state only touches the EEPROM gate-state byte and the
write counter; the field button_pressed passes through. -/
@[simp] theorem write_gate_state_button_pressed (s : Nat) (c : Ctrl) :
    (write_gate_state s c).button_pressed = c.button_pressed := by
  unfold write_gate_state; split_ifs <;> rfl

/-- write_gate_state only touches the EEPROM gate-state byte and the
write counter; the field gate_moving passes through. -/
@[simp] theorem write_gate_state_gate_moving (s : Nat) (c : Ctrl) :
    (write_gate_state s c).gate_moving = c.gate_moving := by
  unfold write_gate_state; split_ifs <;> rfl

/-- write_gate_state only touches the EEPROM gate-state byte and the
write counter; the field idle_timer_ms passes through. -/
@[simp] theorem write_gate_state_idle_timer_ms (s : Nat) (c : Ctrl) :
    (write_gate_state s c).idle_timer_ms = c.idle_timer_ms := by
  unfold write_gate_state; split_ifs <;> rfl

/-- write_gate_state only touches the EEPROM gate-state byte and the
write counter; the field reset_scheduled passes through. -/
@[simp] theorem write_gate_state_reset_scheduled (s : Nat) (c : Ctrl) :
    (write_gate_state s c).reset_scheduled = c.reset_scheduled := by
  unfold write_gate_state; split_ifs <;> rfl

/-- write_gate_state only touches the EEPROM gate-state byte and the
write counter; the field relay_k1 passes through. -/
@[simp] theorem write_gate_state_relay_k1 (s : Nat) (c : Ctrl) :
    (write_gate_state s c).relay_k1 = c.relay_k1 := by
  unfold write_gate_state; split_ifs <;> rfl

/-- write_gate_state only touches the EEPROM gate-state byte and the
write counter; the field relay_k2 passes through. -/
@[simp] theorem write_gate_state_relay_k2 (s : Nat) (c : Ctrl) :
    (write_gate_state s c).relay_k2 = c.relay_k2 := by
  unfold write_gate_state; split_ifs <;> rfl

/-- write_gate_state only touches the EEPROM gate-state byte and the
write counter; the field relay_k3 passes through. -/
@[simp] theorem write_gate_state_relay_k3 (s : Nat) (c : Ctrl) :
    (write_gate_state s c).relay_k3 = c.relay_k3 := by
  unfold write_gate_state; split_ifs <;> rfl

/-- write_gate_state only touches the EEPROM gate-state byte and the
write counter; the field relay_k4 passes through. -/
@[simp] theorem write_gate_state_relay_k4 (s : Nat) (c : Ctrl) :
    (write_gate_state s c).relay_k4 = c.relay_k4 := by
  unfold write_gate_state; split_ifs <;> rfl

/-- write_gate_state only touches the EEPROM gate-state byte and the
write counter; the field led_opening passes through. -/
@[simp] theorem write_gate_state_led_opening (s : Nat) (c : Ctrl) :
    (write_gate_state s c).led_opening = c.led_opening := by
  unfold write_gate_state; split_ifs <;> rfl

/-- write_gate_state only touches the EEPROM gate-state byte and the
write counter; the field led_closing passes through. -/
@[simp] theorem write_gate_state_led_closing (s : Nat) (c : Ctrl) :
    (write_gate_state s c).led_closing = c.led_closing := by
  unfold write_gate_state; split_ifs <;> rfl

/-- write_gate_state only touches the EEPROM gate-state byte and the
write counter; the field eeprom_reset_flag passes through. -/
@[simp] theorem write_gate_state_eeprom_reset_flag (s : Nat) (c : Ctrl) :
    (write_gate_state s c).eeprom_reset_flag = c.eeprom_reset_flag := by
  unfold write_gate_state; split_ifs <;> rfl

/-- write_gate_state only touches the EEPROM gate-state byte and the
write counter; the field wdt_services passes through. -/
@[simp] theorem write_gate_state_wdt_services (s : Nat) (c : Ctrl) :
    (write_gate_state s c).wdt_services = c.wdt_services := by
  unfold write_gate_state; split_ifs <;> rfl

/-- write_gate_state only touches the EEPROM gate-state byte and the
write counter; the field wdt_short passes through. -/
@[simp] theorem write_gate_state_wdt_short (s : Nat) (c : Ctrl) :
    (write_gate_state s c).wdt_short = c.wdt_short := by
  unfold write_gate_state; split_ifs <;> rfl

/-- write_gate_state only touches the EEPROM gate-state byte and the
write counter; the field halted passes through. -/
@[simp] theorem write_gate_state_halted (s : Nat) (c : Ctrl) :
    (write_gate_state s c).halted = c.halted := by
  unfold write_gate_state; split_ifs <;> rfl

/-- emergency_stop never touches button_pressed. -/
theorem emergency_stop_button_pressed (c : Ctrl) :
    (emergency_stop c).button_pressed = c.button_pressed := by
  simp only [emergency_stop, stop_gate, indicate_stop, reset_watchdog]
  split_ifs <;> simp

/-- From a Closed gate, one uninterrupted toggle-and-complete step ends
Open with motion inactive. -/
theorem toggle_complete_of_closed (c : Ctrl) (h : c.gate_state = GATE_CLOSED) :
    (toggle_complete c).gate_state = GATE_OPEN ∧
    (toggle_complete c).gate_moving = false := by
  have hd : toggle_gate noEnv c = open_gate noEnv (toggle_entry c) := by
    unfold toggle_gate
    rw [if_pos]
    exact Or.inl (show (toggle_entry c).gate_state = GATE_CLOSED from h)
  unfold toggle_complete
  rw [hd, open_gate_noEnv_eq]
  exact ⟨by simp [open_finish, stop_gate, indicate_stop],
         by simp [open_finish, stop_gate, indicate_stop]⟩

/-- From an Open gate, one uninterrupted toggle-and-complete step ends
Closed with motion inactive. -/
theorem toggle_complete_of_open (c : Ctrl) (h : c.gate_state = GATE_OPEN) :
    (toggle_complete c).gate_state = GATE_CLOSED ∧
    (toggle_complete c).gate_moving = false := by
  have hd : toggle_gate noEnv c = close_gate noEnv (toggle_entry c) := by
    unfold toggle_gate
    rw [if_neg]
    rw [show (toggle_entry c).gate_state = c.gate_state from rfl, h]
    simp [GATE_OPEN, GATE_CLOSED, GATE_CLOSING]
  unfold toggle_complete
  rw [hd, close_gate_noEnv_eq]
  exact ⟨by simp [close_finish, stop_gate, indicate_stop],
         by simp [close_finish, stop_gate, indicate_stop]⟩

/-- C1: toggle_gate first zeroes the idle timer and the scheduled-reset
flag, then flips intent regardless of motion direction: from Closed or
Closing it invokes the open-motion routine (whose begin phase puts the
gate in Opening with motion active), from Open or Opening it invokes the
close-motion routine (begin phase Closing, motion active). -/
theorem c1_toggle_flips_intent (env : Nat → Ctrl → Ctrl) (c : Ctrl) :
    ((c.gate_state = GATE_CLOSED ∨ c.gate_state = GATE_CLOSING) →
      toggle_gate env c = open_gate env (toggle_entry c)) ∧
    ((c.gate_state = GATE_OPEN ∨ c.gate_state = GATE_OPENING) →
      toggle_gate env c = close_gate env (toggle_entry c)) ∧
    (toggle_entry c).idle_timer_ms = 0 ∧
    (toggle_entry c).reset_scheduled = false ∧
    (open_begin (toggle_entry c)).gate_state = GATE_OPENING ∧
    (open_begin (toggle_entry c)).gate_moving = true ∧
    (close_begin (toggle_entry c)).gate_state = GATE_CLOSING ∧
    (close_begin (toggle_entry c)).gate_moving = true := by
  have hgs : (toggle_entry c).gate_state = c.gate_state := rfl
  refine ⟨?_, ?_, rfl, rfl, rfl, rfl, rfl, rfl⟩
  · intro h
    unfold toggle_gate
    rw [if_pos]
    rw [hgs]
    exact h
  · intro h
    unfold toggle_gate
    rw [if_neg]
    rw [hgs]
    rcases h with h | h <;>
      simp [h, GATE_OPEN, GATE_OPENING, GATE_CLOSED, GATE_CLOSING]

/-- C1 witness: from Closed the toggle is the open motion, from Open it
is the close motion. -/
theorem c1_toggle_flips_intent_witness :
    (cInit.gate_state = GATE_CLOSED ∨ cInit.gate_state = GATE_CLOSING) ∧
    toggle_gate noEnv cInit = open_gate noEnv (toggle_entry cInit) ∧
    (cOpen.gate_state = GATE_OPEN ∨ cOpen.gate_state = GATE_OPENING) ∧
    toggle_gate noEnv cOpen = close_gate noEnv (toggle_entry cOpen) := by
  exact ⟨Or.inl rfl,
         (c1_toggle_flips_intent noEnv cInit).1 (Or.inl rfl),
         Or.inl rfl,
         (c1_toggle_flips_intent noEnv cOpen).2.1 (Or.inl rfl)⟩

/-- C2: the motion window.  With the direction relays energized by the
begin phase (K1/K4 for opening, K2/K3 for closing), the routine polls in
10ms quanta servicing the watchdog once per iteration (plus the one
service before the dead-time delay).  If gate_moving is cleared
externally during iteration k of the window, the routine returns early:
gate_state stays at the transient value and this routine writes nothing
to storage.  If the window completes all MOTION_ITERS iterations with
gate_moving still set, all outputs are de-energized, gate_state becomes
the resting value (Open for open_gate, Closed for close_gate), and it is
persisted — storage reads back exactly that resting state. -/
theorem c2_motion_window (c : Ctrl) (k : Nat) (hk : k < MOTION_ITERS) :
    ((open_begin c).relay_k1 = true ∧ (open_begin c).relay_k4 = true ∧
     (close_begin c).relay_k2 = true ∧ (close_begin c).relay_k3 = true) ∧
    ((open_gate (clearAt k) c).gate_state = GATE_OPENING ∧
     (open_gate (clearAt k) c).eeprom_state = c.eeprom_state ∧
     (open_gate (clearAt k) c).eeprom_state_writes = c.eeprom_state_writes ∧
     (open_gate (clearAt k) c).gate_moving = false ∧
     (open_gate (clearAt k) c).wdt_services = c.wdt_services + 1 + (k + 1)) ∧
    ((close_gate (clearAt k) c).gate_state = GATE_CLOSING ∧
     (close_gate (clearAt k) c).eeprom_state = c.eeprom_state ∧
     (close_gate (clearAt k) c).eeprom_state_writes = c.eeprom_state_writes ∧
     (close_gate (clearAt k) c).gate_moving = false ∧
     (close_gate (clearAt k) c).wdt_services = c.wdt_services + 1 + (k + 1)) ∧
    ((open_gate noEnv c).gate_state = GATE_OPEN ∧
     read_gate_state (open_gate noEnv c) = GATE_OPEN ∧
     (open_gate noEnv c).gate_moving = false ∧
     (open_gate noEnv c).relay_k1 = false ∧ (open_gate noEnv c).relay_k2 = false ∧
     (open_gate noEnv c).relay_k3 = false ∧ (open_gate noEnv c).relay_k4 = false ∧
     (open_gate noEnv c).led_opening = false ∧ (open_gate noEnv c).led_closing = false ∧
     (open_gate noEnv c).wdt_services = c.wdt_services + 1 + MOTION_ITERS) ∧
    ((close_gate noEnv c).gate_state = GATE_CLOSED ∧
     read_gate_state (close_gate noEnv c) = GATE_CLOSED ∧
     (close_gate noEnv c).gate_moving = false ∧
     (close_gate noEnv c).relay_k1 = false ∧ (close_gate noEnv c).relay_k2 = false ∧
     (close_gate noEnv c).relay_k3 = false ∧ (close_gate noEnv c).relay_k4 = false ∧
     (close_gate noEnv c).led_opening = false ∧ (close_gate noEnv c).led_closing = false ∧
     (close_gate noEnv c).wdt_services = c.wdt_services + 1 + MOTION_ITERS) := by
  rw [open_gate_clearAt_eq k hk c, close_gate_clearAt_eq k hk c,
      open_gate_noEnv_eq c, close_gate_noEnv_eq c]
  refine ⟨⟨rfl, rfl, rfl, rfl⟩, ⟨rfl, rfl, rfl, rfl, ?_⟩, ⟨rfl, rfl, rfl, rfl, ?_⟩,
          ⟨?_, ?_, ?_, ?_, ?_, ?_, ?_, ?_, ?_, ?_⟩, ⟨?_, ?_, ?_, ?_, ?_, ?_, ?_, ?_, ?_, ?_⟩⟩
  · simp [open_begin, stop_gate, indicate_stop, indicate_opening, reset_watchdog]
    omega
  · simp [close_begin, stop_gate, indicate_stop, indicate_closing, reset_watchdog]
    omega
  all_goals
    simp [open_finish, close_finish, open_begin, close_begin, stop_gate,
          indicate_stop, indicate_opening, indicate_closing, reset_watchdog,
          read_write_gate_state, GATE_OPEN, GATE_CLOSED, GATE_CLOSING, GATE_OPENING]

/-- C2 witness: from the all-zero state, an external clear during
iteration 5 leaves Opening unpersisted, while the uninterrupted window
ends Open and persisted. -/
theorem c2_motion_window_witness :
    5 < MOTION_ITERS ∧
    (open_gate (clearAt 5) cInit).gate_state = GATE_OPENING ∧
    (open_gate (clearAt 5) cInit).eeprom_state_writes = cInit.eeprom_state_writes ∧
    (open_gate noEnv cInit).gate_state = GATE_OPEN ∧
    read_gate_state (open_gate noEnv cInit) = GATE_OPEN := by
  obtain ⟨-, ⟨e1, -, e3, -, -⟩, -, ⟨f1, f2, -⟩, -⟩ := c2_motion_window cInit 5 (by decide)
  exact ⟨by decide, e1, e3, f1, f2⟩

/-- C3: invoked with the gate moving, emergency_stop de-energizes all
four relays and both indicator LEDs, clears gate_moving, zeroes the idle
timer, clears the scheduled-reset flag, resolves Opening to Open and
Closing to Closed, and persists the resolved state (storage reads back
exactly the resolved gate_state). -/
theorem c3_emergency_stop (c : Ctrl) (_hmov : c.gate_moving = true) :
    (emergency_stop c).relay_k1 = false ∧ (emergency_stop c).relay_k2 = false ∧
    (emergency_stop c).relay_k3 = false ∧ (emergency_stop c).relay_k4 = false ∧
    (emergency_stop c).led_opening = false ∧ (emergency_stop c).led_closing = false ∧
    (emergency_stop c).gate_moving = false ∧
    (emergency_stop c).idle_timer_ms = 0 ∧
    (emergency_stop c).reset_scheduled = false ∧
    (c.gate_state = GATE_OPENING → (emergency_stop c).gate_state = GATE_OPEN) ∧
    (c.gate_state = GATE_CLOSING → (emergency_stop c).gate_state = GATE_CLOSED) ∧
    read_gate_state (emergency_stop c) = (emergency_stop c).gate_state := by
  simp only [emergency_stop, stop_gate, indicate_stop, reset_watchdog]
  split_ifs with h1 h2 <;>
    simp_all [read_write_gate_state, GATE_OPENING, GATE_OPEN, GATE_CLOSING, GATE_CLOSED]

/-- C3 witness: an emergency stop while moving in the Opening state ends
with a persisted Open state and the gate no longer moving. -/
theorem c3_emergency_stop_witness :
    cMovingOpening.gate_moving = true ∧
    (emergency_stop cMovingOpening).gate_state = GATE_OPEN ∧
    (emergency_stop cMovingOpening).gate_moving = false ∧
    read_gate_state (emergency_stop cMovingOpening) = GATE_OPEN := by
  obtain ⟨-, -, -, -, -, -, h7, -, -, h10, -, h12⟩ := c3_emergency_stop cMovingOpening rfl
  exact ⟨rfl, h10 rfl, h7, h12.trans (h10 rfl)⟩

/-- C4: for every sequence of idle toggles each followed by an
uninterrupted full-duration window, the resting states alternate
strictly — starting Closed, after an even number of steps the gate is
Closed and after an odd number Open (and symmetrically starting Open) —
and two consecutive toggle-and-complete steps from a resting state
return to that same resting state. -/
theorem c4_toggle_alternation (n : Nat) : ∀ c : Ctrl,
    (c.gate_state = GATE_CLOSED →
      (toggle_seq (2 * n) c).gate_state = GATE_CLOSED ∧
      (toggle_seq (2 * n + 1) c).gate_state = GATE_OPEN) ∧
    (c.gate_state = GATE_OPEN →
      (toggle_seq (2 * n) c).gate_state = GATE_OPEN ∧
      (toggle_seq (2 * n + 1) c).gate_state = GATE_CLOSED) ∧
    ((c.gate_state = GATE_CLOSED ∨ c.gate_state = GATE_OPEN) →
      (toggle_complete (toggle_complete c)).gate_state = c.gate_state) := by
  induction n with
  | zero =>
    intro c
    refine ⟨?_, ?_, ?_⟩
    · intro h
      constructor
      · simpa [toggle_seq] using h
      · simp only [Nat.mul_zero, Nat.zero_add, toggle_seq]
        exact (toggle_complete_of_closed c h).1
    · intro h
      constructor
      · simpa [toggle_seq] using h
      · simp only [Nat.mul_zero, Nat.zero_add, toggle_seq]
        exact (toggle_complete_of_open c h).1
    · rintro (h | h)
      · rw [h]
        exact (toggle_complete_of_open _ (toggle_complete_of_closed c h).1).1
      · rw [h]
        exact (toggle_complete_of_closed _ (toggle_complete_of_open c h).1).1
  | succ m ih =>
    intro c
    refine ⟨?_, ?_, ?_⟩
    · intro h
      have h1 := (toggle_complete_of_closed c h).1
      have h2 := (toggle_complete_of_open _ h1).1
      have ihc := (ih (toggle_complete (toggle_complete c))).1 h2
      have e2 : 2 * (m + 1) = 2 * m + 1 + 1 := by ring
      rw [e2]
      simp only [toggle_seq] at ihc ⊢
      exact ihc
    · intro h
      have h1 := (toggle_complete_of_open c h).1
      have h2 := (toggle_complete_of_closed _ h1).1
      have ihc := (ih (toggle_complete (toggle_complete c))).2.1 h2
      have e2 : 2 * (m + 1) = 2 * m + 1 + 1 := by ring
      rw [e2]
      simp only [toggle_seq] at ihc ⊢
      exact ihc
    · rintro (h | h)
      · rw [h]
        exact (toggle_complete_of_open _ (toggle_complete_of_closed c h).1).1
      · rw [h]
        exact (toggle_complete_of_closed _ (toggle_complete_of_open c h).1).1

/-- C4 witness: from the Closed all-zero state, two steps (n = 1) end
Closed, three end Open, and the double step is the identity on the
resting state. -/
theorem c4_toggle_alternation_witness :
    cInit.gate_state = GATE_CLOSED ∧
    (toggle_seq 2 cInit).gate_state = GATE_CLOSED ∧
    (toggle_seq 3 cInit).gate_state = GATE_OPEN ∧
    (toggle_complete (toggle_complete cInit)).gate_state = cInit.gate_state := by
  obtain ⟨hA, -, hC⟩ := c4_toggle_alternation 1 cInit
  obtain ⟨h1, h2⟩ := hA rfl
  exact ⟨rfl, h1, h2, hC (Or.inl rfl)⟩

/-- C5: round-trip through the persistent store — writing a resting
state (Closed = 0 or Open = 3) and reading it back yields that same
state; writing a transient code (Closing = 1, Opening = 2) and reading
it back yields the resting state it was heading toward (Closing reads
back as Closed, Opening as Open). -/
theorem c5_store_roundtrip (c : Ctrl) :
    read_gate_state (write_gate_state GATE_CLOSED c) = GATE_CLOSED ∧
    read_gate_state (write_gate_state GATE_OPEN c) = GATE_OPEN ∧
    read_gate_state (write_gate_state GATE_CLOSING c) = GATE_CLOSED ∧
    read_gate_state (write_gate_state GATE_OPENING c) = GATE_OPEN := by
  refine ⟨?_, ?_, ?_, ?_⟩ <;> rw [read_write_gate_state] <;>
    simp [GATE_CLOSED, GATE_CLOSING, GATE_OPENING, GATE_OPEN]

/-- C6 counterexample: with the raw stored byte equal to 1 and s = 1 the
stored value equals s, yet write_gate_state performs an EEPROM write
(the code compares s against the normalized read_gate_state, which is 0,
not against the raw stored byte) — so the claim, quantified over every
stored gate-state byte, fails. -/
theorem c6_counterexample :
    cStored1.eeprom_state = GATE_CLOSING ∧
    (write_gate_state GATE_CLOSING cStored1).eeprom_state_writes ≠
      cStored1.eeprom_state_writes := by
  decide

/-- C6 amended: write_gate_state s writes if and only if the normalized
stored value — read_gate_state, the stored byte with transient codes
resolved — differs from s; when read_gate_state equals s, the state
(storage included) is left entirely unchanged. -/
theorem c6_write_only_when_normalized_differs (s : Nat) (c : Ctrl) :
    (read_gate_state c = s → write_gate_state s c = c) ∧
    (read_gate_state c ≠ s →
      (write_gate_state s c).eeprom_state = s ∧
      (write_gate_state s c).eeprom_state_writes = c.eeprom_state_writes + 1) := by
  constructor
  · intro h; simp [write_gate_state, h]
  · intro h; simp [write_gate_state, h]

/-- C6 witness: on the all-zero state, writing GATE_CLOSED (the value
already read back) leaves everything unchanged, and writing GATE_OPEN
(which differs from the read) stores it. -/
theorem c6_write_only_when_normalized_differs_witness :
    read_gate_state cInit = GATE_CLOSED ∧
    write_gate_state GATE_CLOSED cInit = cInit ∧
    read_gate_state cInit ≠ GATE_OPEN ∧
    (write_gate_state GATE_OPEN cInit).eeprom_state = GATE_OPEN := by
  refine ⟨by decide,
          (c6_write_only_when_normalized_differs GATE_CLOSED cInit).1 (by decide),
          by decide,
          ((c6_write_only_when_normalized_differs GATE_OPEN cInit).2 (by decide)).1⟩

/-- C7: the debounced button handler.  If the line is no longer asserted
after the 250ms debounce delay, the handler changes no state (the only
effect is the single watchdog service of the debounce path).  If it is
still asserted, then after release the handler zeroes the idle timer and
the scheduled-reset flag and, when the gate is moving, synchronously
invokes emergency_stop and returns without latching button_pressed;
otherwise it latches button_pressed for the main loop. -/
theorem c7_isr_debounce (c : Ctrl) (w : Nat) :
    ((isr_int0 false w c).button_pressed = c.button_pressed ∧
     (isr_int0 false w c).gate_moving = c.gate_moving ∧
     (isr_int0 false w c).gate_state = c.gate_state ∧
     (isr_int0 false w c).idle_timer_ms = c.idle_timer_ms ∧
     (isr_int0 false w c).reset_scheduled = c.reset_scheduled ∧
     (isr_int0 false w c).relay_k1 = c.relay_k1 ∧
     (isr_int0 false w c).relay_k2 = c.relay_k2 ∧
     (isr_int0 false w c).relay_k3 = c.relay_k3 ∧
     (isr_int0 false w c).relay_k4 = c.relay_k4 ∧
     (isr_int0 false w c).led_opening = c.led_opening ∧
     (isr_int0 false w c).led_closing = c.led_closing ∧
     (isr_int0 false w c).eeprom_state = c.eeprom_state ∧
     (isr_int0 false w c).eeprom_state_writes = c.eeprom_state_writes) ∧
    (c.gate_moving = true →
      isr_int0 true w c =
        emergency_stop
          { c with wdt_services := c.wdt_services + 1 + w,
                   idle_timer_ms := 0, reset_scheduled := false } ∧
      (isr_int0 true w c).button_pressed = c.button_pressed) ∧
    (c.gate_moving = false →
      isr_int0 true w c =
        { c with wdt_services := c.wdt_services + 1 + w,
                 idle_timer_ms := 0, reset_scheduled := false,
                 button_pressed := true }) := by
  refine ⟨by simp [isr_int0, reset_watchdog], ?_, ?_⟩
  · intro h
    have he : isr_int0 true w c =
        emergency_stop
          { c with wdt_services := c.wdt_services + 1 + w,
                   idle_timer_ms := 0, reset_scheduled := false } := by
      simp [isr_int0, reset_watchdog, h]
    exact ⟨he, by rw [he, emergency_stop_button_pressed]⟩
  · intro h
    simp [isr_int0, reset_watchdog, h]

/-- C7 witness: a released line changes nothing; a held press while idle
latches button_pressed; a held press while moving routes to
emergency_stop without latching button_pressed. -/
theorem c7_isr_debounce_witness :
    (isr_int0 false 3 cInit).button_pressed = cInit.button_pressed ∧
    (isr_int0 false 3 cInit).idle_timer_ms = cInit.idle_timer_ms ∧
    cInit.gate_moving = false ∧
    isr_int0 true 3 cInit =
      { cInit with wdt_services := cInit.wdt_services + 1 + 3,
                   idle_timer_ms := 0, reset_scheduled := false,
                   button_pressed := true } ∧
    cMoving.gate_moving = true ∧
    (isr_int0 true 3 cMoving).button_pressed = cMoving.button_pressed := by
  refine ⟨(c7_isr_debounce cInit 3).1.1, (c7_isr_debounce cInit 3).1.2.2.2.1,
          rfl, ((c7_isr_debounce cInit 3).2.2) rfl, rfl,
          (((c7_isr_debounce cMoving 3).2.1) rfl).2⟩

/-- C8: at a periodic supervisor check, if accumulated idle time has
reached the 6-hour threshold with the gate not moving and no reset yet
scheduled, the reset-scheduled flag latches and the idle counter is
zeroed (and no reset is performed at that same check, since the grace
delay restarts); if the idle timer is below the threshold — as after a
button press or start of motion zeroed it — an unscheduled flag stays
unscheduled. -/
theorem c8_supervisor_schedule (c : Ctrl) :
    (REGULAR_RESET_HOURS * MS_PER_HOUR ≤ c.idle_timer_ms →
     c.gate_moving = false → c.reset_scheduled = false →
      (supervisor_tick c).reset_scheduled = true ∧
      (supervisor_tick c).idle_timer_ms = 0 ∧
      (supervisor_tick c).eeprom_reset_flag = c.eeprom_reset_flag ∧
      (supervisor_tick c).halted = c.halted) ∧
    (c.reset_scheduled = false →
     c.idle_timer_ms < REGULAR_RESET_HOURS * MS_PER_HOUR →
      (supervisor_tick c).reset_scheduled = false) := by
  constructor
  · intro h1 h2 h3
    have hs : supervisor_tick c =
        { c with reset_scheduled := true, idle_timer_ms := 0 } := by
      simp [supervisor_tick, schedule_reset, h1, h2, h3, RESET_DELAY]
    rw [hs]
    simp
  · intro h1 h2
    have h2n : ¬ REGULAR_RESET_HOURS * MS_PER_HOUR ≤ c.idle_timer_ms :=
      Nat.not_le.mpr h2
    have hs : supervisor_tick c = c := by
      simp [supervisor_tick, h1, h2n]
    rw [hs]
    exact h1

/-- C8 witness: at exactly six idle hours the flag latches and the idle
counter restarts; on the fresh all-zero state it stays unscheduled. -/
theorem c8_supervisor_schedule_witness :
    REGULAR_RESET_HOURS * MS_PER_HOUR ≤ cIdle6h.idle_timer_ms ∧
    cIdle6h.gate_moving = false ∧ cIdle6h.reset_scheduled = false ∧
    (supervisor_tick cIdle6h).reset_scheduled = true ∧
    (supervisor_tick cIdle6h).idle_timer_ms = 0 ∧
    cInit.idle_timer_ms < REGULAR_RESET_HOURS * MS_PER_HOUR ∧
    (supervisor_tick cInit).reset_scheduled = false := by
  obtain ⟨hA, hB⟩ := c8_supervisor_schedule cIdle6h
  obtain ⟨h1, h2, -, -⟩ := hA (by decide) rfl rfl
  exact ⟨by decide, rfl, rfl, h1, h2, by decide,
         (c8_supervisor_schedule cInit).2 rfl (by decide)⟩

/-- C9: once a reset is scheduled and the idle timer reaches the
5-second grace threshold at a periodic check, the controlled reset runs:
the gate is stopped if moving, the EEPROM reset marker is written to 1,
the very short (15ms) watchdog timeout is armed, and the firmware enters
the terminal busy-wait, never servicing the watchdog again (the service
count is unchanged), which guarantees a watchdog reset. -/
theorem c9_controlled_reset (c : Ctrl)
    (hs : c.reset_scheduled = true) (hi : RESET_DELAY ≤ c.idle_timer_ms) :
    supervisor_tick c = perform_controlled_reset c ∧
    (supervisor_tick c).eeprom_reset_flag = 1 ∧
    (supervisor_tick c).wdt_short = true ∧
    (supervisor_tick c).halted = true ∧
    (supervisor_tick c).gate_moving = false ∧
    (supervisor_tick c).wdt_services = c.wdt_services := by
  have he : supervisor_tick c = perform_controlled_reset c := by
    simp [supervisor_tick, hs, hi]
  refine ⟨he, ?_, ?_, ?_, ?_, ?_⟩ <;> rw [he] <;>
    simp only [perform_controlled_reset, stop_gate, indicate_stop] <;>
    split_ifs <;> simp_all

/-- C9 witness: at the grace threshold the reset marker is persisted as
1 and the terminal watchdog configuration is entered. -/
theorem c9_controlled_reset_witness :
    cGrace.reset_scheduled = true ∧ RESET_DELAY ≤ cGrace.idle_timer_ms ∧
    (supervisor_tick cGrace).eeprom_reset_flag = 1 ∧
    (supervisor_tick cGrace).wdt_short = true ∧
    (supervisor_tick cGrace).halted = true := by
  obtain ⟨-, h2, h3, h4, -, -⟩ := c9_controlled_reset cGrace rfl (by decide)
  exact ⟨rfl, by decide, h2, h3, h4⟩

/-- C10: any stored byte other than the two transient codes — including
0xFF from erased EEPROM — is returned unchanged by read_gate_state and
loaded verbatim into gate_state at boot; toggle_gate sends every
gate_state outside the Closed/Closing pair to the close-motion routine. -/
theorem c10_out_of_range_bytes (c : Ctrl) (env : Nat → Ctrl → Ctrl) :
    (c.eeprom_state ≠ GATE_CLOSING → c.eeprom_state ≠ GATE_OPENING →
      read_gate_state c = c.eeprom_state ∧
      (boot_load_state c).gate_state = c.eeprom_state) ∧
    (c.gate_state ≠ GATE_CLOSED → c.gate_state ≠ GATE_CLOSING →
      toggle_gate env c = close_gate env (toggle_entry c)) := by
  constructor
  · intro h1 h2
    have hr : read_gate_state c = c.eeprom_state := by
      unfold read_gate_state
      simp [h1, h2]
    exact ⟨hr, by simp [boot_load_state, hr]⟩
  · intro h1 h2
    have hgs : (toggle_entry c).gate_state = c.gate_state := rfl
    unfold toggle_gate
    rw [if_neg]
    simp [hgs, h1, h2]

/-- C10 witness: at the erased byte 0xFF. -/
theorem c10_out_of_range_bytes_witness :
    cErased.eeprom_state ≠ GATE_CLOSING ∧ cErased.eeprom_state ≠ GATE_OPENING ∧
    read_gate_state cErased = 255 ∧
    (boot_load_state cErased).gate_state = 255 ∧
    cErased.gate_state ≠ GATE_CLOSED ∧ cErased.gate_state ≠ GATE_CLOSING ∧
    toggle_gate noEnv cErased = close_gate noEnv (toggle_entry cErased) := by
  refine ⟨by decide, by decide,
          ((c10_out_of_range_bytes cErased noEnv).1 (by decide) (by decide)).1,
          ((c10_out_of_range_bytes cErased noEnv).1 (by decide) (by decide)).2,
          by decide, by decide,
          (c10_out_of_range_bytes cErased noEnv).2 (by decide) (by decide)⟩

end GateCtrl
